import Mathlib

/-!
Shallow embedding of `sunpy/coords/util.py` (solar ephemeris and
differential-rotation utilities) over the real numbers, together with
theorems settling the specification claims about it.  Machine floats are
modelled by `ℝ`; the external time collaborator `julian_day` / `parse_time`
is an uninterpreted pure function parameter.
-/

open Real

namespace SunpyCoordsUtil

/-- Model of `np.deg2rad`: degrees to radians. -/
noncomputable def deg2rad (x : ℝ) : ℝ := x * (Real.pi / 180)

/-- Model of `np.rad2deg`: radians to degrees. -/
noncomputable def rad2deg (x : ℝ) : ℝ := x * (180 / Real.pi)

/-- Model of `np.mod a b` for the positive moduli used in this file:
`a - b * floor (a / b)`. -/
noncomputable def npmod (a b : ℝ) : ℝ := a - b * (Int.floor (a / b) : ℝ)

/-- Model of the integer rounding used by `np.round`: round half to even. -/
noncomputable def roundHalfEven (x : ℝ) : ℤ :=
  if Int.fract x < 1 / 2 then Int.floor x
  else if 1 / 2 < Int.fract x then Int.floor x + 1
  else if Even (Int.floor x) then Int.floor x else Int.floor x + 1

/-- Model of `np.round x 4`: round to four decimal places. -/
noncomputable def round4 (x : ℝ) : ℝ := (roundHalfEven (x * 10000) : ℝ) / 10000

/-- Model of `np.arctan2 y x` via the complex argument, whose range is
`(-pi, pi]` exactly as for the mathematical two-argument arctangent. -/
noncomputable def arctan2 (y x : ℝ) : ℝ := Complex.arg ⟨x, y⟩

/-- The `duration` argument of `diff_rot` (`ddays` in the source): a plain
number of days, or an already-constructed `datetime.timedelta` (whose payload
is its total seconds). -/
inductive Duration where
  | days (r : ℝ)
  | timedelta (seconds : ℝ)

/-- The error raised by the timedelta branch of `diff_rot`: the local
variable `delta` is only assigned in the non-timedelta branch (lines 60-61),
so line 63 `delta.total_seconds()` raises `UnboundLocalError`. -/
def unboundDeltaMsg : String := "UnboundLocalError: local variable delta referenced before assignment"

/-- The `ValueError` message of the `rot_type` validation in `diff_rot`. -/
def rotTypeMsg : String := "rot_type must equal one of howard, allen, snodgrass"

/-- The `rot_params` dictionary of `diff_rot` (A, B, C coefficients in
micro-radians per second). -/
def rot_params (rot_type : String) : Option (ℝ × ℝ × ℝ) :=
  if rot_type = "howard" then some (2.894, -0.428, -0.370)
  else if rot_type = "snodgrass" then some (2.851, -0.343, -0.474)
  else none

/-- The rotation in degrees accumulated before the frame correction of
`diff_rot` (lines 66-85): the value the source calls `rotation_deg` just
before the `synodic` adjustment; this is the sidereal-frame value prior to
rounding.  `r` is the duration in days. -/
noncomputable def sidereal_rotation_deg (r latitude : ℝ) (rot_type : String) : ℝ :=
  let delta_seconds := r * 24 * 3600
  let delta_days := delta_seconds / 24 / 3600
  let sin2l := (Real.sin (deg2rad latitude)) ^ 2
  let sin4l := sin2l ^ 2
  if rot_type = "allen" then delta_days * (14.44 - 3.0 * sin2l)
  else
    match rot_params rot_type with
    | some (A, B, C) => (A + B * sin2l + C * sin4l) * 1e-6 * delta_seconds / deg2rad 1
    | none => 0  -- unreachable: diff_rot validates rot_type before this point

/-- Model of `diff_rot` (lines 13-90).  A `timedelta` duration skips the
`delta` assignment and fails immediately; otherwise the profile is validated,
the rotation is accumulated, the synodic correction applied, and the result
rounded to four decimals. -/
noncomputable def diff_rot (ddays : Duration) (latitude : ℝ)
    (rot_type : String) (frame_time : String) : Except String ℝ :=
  match ddays with
  | .timedelta _ => .error unboundDeltaMsg
  | .days r =>
    let delta_seconds := r * 24 * 3600
    let delta_days := delta_seconds / 24 / 3600
    if rot_type ∉ (["howard", "allen", "snodgrass"] : List String) then
      .error rotTypeMsg
    else
      let rotation_deg := sidereal_rotation_deg r latitude rot_type
      let rotation_deg :=
        if frame_time = "synodic" then rotation_deg - 0.9856 * delta_days
        else rotation_deg
      .ok (round4 rotation_deg)

/-- The normalization at lines 361-364 of the source: add 360 degrees to a
negative right ascension. -/
noncomputable def normalize360 (r : ℝ) : ℝ := if r < 0 then r + 360 else r

/-- The five-field dictionary returned by `sun_pos` (line 371-372). -/
structure EphemerisResult where
  longitude : ℝ
  ra : ℝ
  dec : ℝ
  app_long : ℝ
  obliq : ℝ

/-- Julian centuries from 1900.0 (line 303): `t = dd / 36525.0`. -/
noncomputable def sunPosT (dd : ℝ) : ℝ := dd / 36525.0

/-- The accumulated solar longitude in arcseconds before the final wrap
(lines 306-341 of `sun_pos`): mean longitude plus the equation-of-centre,
Venus, Jupiter, Moon and long-term corrections. -/
noncomputable def sunPosLRaw (dd : ℝ) : ℝ :=
  let t := sunPosT dd
  let l := (279.6966780 + npmod (36000.7689250 * t) 360.00) * 3600.0
  let me := 358.4758440 + npmod (35999.049750 * t) 360.0
  let ellcor := (6910.10 - 17.20 * t) * Real.sin (deg2rad me) +
    72.30 * Real.sin (deg2rad (2.0 * me))
  let l := l + ellcor
  let mv := 212.603219 + npmod (58517.8038750 * t) 360.0
  let vencorr := 4.80 * Real.cos (deg2rad (299.10170 + mv - me)) +
    5.50 * Real.cos (deg2rad (148.31330 + 2.0 * mv - 2.0 * me)) +
    2.50 * Real.cos (deg2rad (315.94330 + 2.0 * mv - 3.0 * me)) +
    1.60 * Real.cos (deg2rad (345.25330 + 3.0 * mv - 4.0 * me)) +
    1.00 * Real.cos (deg2rad (318.150 + 3.0 * mv - 5.0 * me))
  let l := l + vencorr
  let mj := 225.3283280 + npmod (3034.69202390 * t) 360.00
  let jupcorr := 7.20 * Real.cos (deg2rad (179.53170 - mj + me)) +
    2.60 * Real.cos (deg2rad (263.21670 - mj)) +
    2.70 * Real.cos (deg2rad (87.14500 - 2.0 * mj + 2.0 * me)) +
    1.60 * Real.cos (deg2rad (109.49330 - 2.0 * mj + me))
  let l := l + jupcorr
  let d := 350.73768140 + npmod (445267.114220 * t) 360.0
  let mooncorr := 6.50 * Real.sin (deg2rad d)
  let l := l + mooncorr
  let longterm := 6.40 * Real.sin (deg2rad (231.190 + 20.20 * t))
  l + longterm

/-- Line 342: the wrapped longitude `l` in arcseconds. -/
noncomputable def sunPosLWrapped (dd : ℝ) : ℝ :=
  npmod (sunPosLRaw dd + 2592000.0) 1296000.0

/-- Line 349: the longitude of the Moons mean node. -/
noncomputable def sunPosOmega (dd : ℝ) : ℝ :=
  259.1832750 - npmod (1934.1420080 * sunPosT dd) 360.0

/-- Lines 346-357: the apparent longitude in degrees, after the aberration
(`- 20.5` arcseconds) and nutation corrections and the division by 3600. -/
noncomputable def sunPosApparentL (dd : ℝ) : ℝ :=
  (sunPosLWrapped dd - 20.5 - 17.20 * Real.sin (deg2rad (sunPosOmega dd))) / 3600.0

/-- Lines 353-354: the true obliquity in degrees. -/
noncomputable def sunPosOblt (dd : ℝ) : ℝ :=
  23.4522940 - 0.01301250 * sunPosT dd +
    (9.20 * Real.cos (deg2rad (sunPosOmega dd))) / 3600.0

/-- The body of `sun_pos` after the date has been resolved to `dd`, the
number of Julian days since 2415020.0 (lines 302-372). -/
noncomputable def sunPosFromDD (dd : ℝ) : EphemerisResult :=
  let l := sunPosApparentL dd
  let oblt := sunPosOblt dd
  { longitude := sunPosLWrapped dd / 3600.0
    ra := normalize360 (rad2deg (arctan2
      (Real.sin (deg2rad l) * Real.cos (deg2rad oblt)) (Real.cos (deg2rad l))))
    dec := rad2deg (Real.arcsin (Real.sin (deg2rad l) * Real.sin (deg2rad oblt)))
    app_long := l
    obliq := oblt }

/-- The `date` argument of `sun_pos`: either a calendar instant of some
abstract type (handled with `is_julian=False`), or an already-numeric Julian
day (handled with `is_julian=True`).  The Python flag `is_julian` tells the
duck-typed code which of the two it received, so it is encoded here by the
constructor. -/
inductive DateSpec (γ : Type) where
  | calendar (c : γ)
  | julian (jd : ℝ)

/-- Model of `sun_pos` (lines 231-372).  `julian_day` is the uninterpreted
external time collaborator.  The four-way branch of lines 289-300 resolves
`dd` and the rest is `sunPosFromDD`. -/
noncomputable def sun_pos {γ : Type} (julian_day : γ → ℝ)
    (date : DateSpec γ) (since_2415020 : Bool) : EphemerisResult :=
  match date with
  | .julian j =>
    if since_2415020 then sunPosFromDD j else sunPosFromDD (j - 2415020.0)
  | .calendar c =>
    if since_2415020 then sunPosFromDD (julian_day c)
    else sunPosFromDD (julian_day c - 2415020.0)

/-- The first summand of the position angle computed at lines 221-223 of
`pb0r`, exactly as parenthesised in the source: the tangent is applied to
the product `deg2rad oblt * cos (deg2rad appl)`. -/
noncomputable def pb0r_p (oblt appl arg : ℝ) : ℝ :=
  rad2deg (Real.arctan (-Real.tan (deg2rad oblt * Real.cos (deg2rad appl))) +
    Real.arctan (-0.127220 * Real.cos (deg2rad arg)))

/-- Modelled from the spec: the position-angle formula as the specification
(and the cited IDL `pb0r.pro`) states it,
`P = rad2deg (atan (-tan oblt * cos appl) + atan (-0.12722 * cos arg))`,
with the tangent applied to the obliquity alone.  Stated only to be compared
with the source formula `pb0r_p`. -/
noncomputable def pb0r_p_spec (oblt appl arg : ℝ) : ℝ :=
  rad2deg (Real.arctan (-Real.tan (deg2rad oblt) * Real.cos (deg2rad appl)) +
    Real.arctan (-0.127220 * Real.cos (deg2rad arg)))

/-- The record `pb0r` is meant to return (its line-228 return statement names
the keys `b0`, `rsun`, `l0`). -/
structure PB0RResult where
  b0 : ℝ
  rsun : ℝ
  l0 : ℝ

/-- The `ValueError` message of the `stereo` branch of `pb0r`. -/
def stereoMsg : String := "STEREO solar P, B0 and semi-diameter calcution is not supported."

/-- The error raised by the return statement of `pb0r`: none of `b0`, `rsun`,
`l0` is ever assigned in the function body (the B0 block at line 226 is an
empty comment), so line 228 raises `NameError`. -/
def pb0rNameMsg : String := "NameError: name b0 is not defined"

/-- Model of `pb0r` (lines 194-228).  The locals up to `p` are computed as in
the source, and then the return statement fails because `b0`, `rsun` and `l0`
are unbound names. -/
noncomputable def pb0r {γ : Type} (julian_day : γ → ℝ) (date : γ)
    (stereo : Bool) : Except String PB0RResult :=
  if stereo then .error stereoMsg
  else
    let de := julian_day date - 2415020.0
    let sun_position := sun_pos julian_day (.calendar date) false
    let longmed := sun_position.longitude
    let appl := sun_position.app_long
    let oblt := sun_position.obliq
    let Lambda := longmed - (20.50 / 3600.0)
    let node := 73.6666660 + (50.250 / 3600.0) * ((de / 365.250) + 50.0)
    let arg := Lambda - node
    let _p := pb0r_p oblt appl arg
    .error pb0rNameMsg

/-- The `ValueError` message of the shape validation of `rot_xy`. -/
def shapeMsg : String := "Input co-ordinates must have the same shape."

/-- The `ValueError` message of the time-keyword validation of `rot_xy`
(lines 182-185). -/
def insufficientTimeMsg : String := "You need to specify tstart and tend, or tstart and interval"

/-- The error raised by the rotation branch of `rot_xy` (line 189): the names
`rsun`, `b0`, `l0` are not defined anywhere in the module. -/
def rotXyNameMsg : String := "NameError: name rsun is not defined"

/-- Model of `rot_xy` (lines 93-191).  `parse_time` is the uninterpreted time
collaborator (instants modelled as real epoch seconds) and `now` the value of
`datetime.datetime.utcnow()`.  Array arguments are abstracted by their
shapes; an `interval` keyword is abstracted by its total seconds (the source
accepts a number or a timedelta but converts both to a timedelta).  The
function returns `None` (here `Unit`) on the non-error paths. -/
noncomputable def rot_xy {σ : Type} (parse_time : σ → ℝ) (now : ℝ)
    (xshape yshape : List Nat) (tstart tend : Option σ)
    (interval : Option ℝ) : Except String Unit :=
  if xshape ≠ yshape then .error shapeMsg
  else
    let tendV : ℝ := match tend with | some s => parse_time s | none => now
    let delta : Option ℝ :=
      match tstart with | some s => some (tendV - parse_time s) | none => none
    let delta : Option ℝ :=
      match interval with | some i => some i | none => delta
    if (tstart.isNone && tend.isNone) || (tstart.isNone && interval.isNone) then
      .error insufficientTimeMsg
    else
      match delta with
      | none => .error "UnboundLocalError: local variable delta"
      | some ds => if 0 < ds then .error rotXyNameMsg else .ok ()

/-! ## Helper lemmas (shared) -/

/-- The two-argument arctangent lands in `(-pi, pi]`. -/
theorem arctan2_range (y x : ℝ) : -Real.pi < arctan2 y x ∧ arctan2 y x ≤ Real.pi := by
  have h := Complex.arg_mem_Ioc ⟨x, y⟩
  exact ⟨h.1, h.2⟩

/-- Converting an `arctan2` value to degrees and adding 360 to a negative
result lands in `[0, 360)`. -/
theorem normalize360_arctan2_range (y x : ℝ) :
    0 ≤ normalize360 (rad2deg (arctan2 y x)) ∧
      normalize360 (rad2deg (arctan2 y x)) < 360 := by
  obtain ⟨hl, hu⟩ := arctan2_range y x
  have hpi : (0 : ℝ) < Real.pi := Real.pi_pos
  have hc : (0 : ℝ) < 180 / Real.pi := by positivity
  have hub : rad2deg (arctan2 y x) ≤ 180 := by
    have := mul_le_mul_of_nonneg_right hu (le_of_lt hc)
    have hπ : Real.pi * (180 / Real.pi) = 180 := by field_simp
    unfold rad2deg
    linarith
  have hlb : -180 < rad2deg (arctan2 y x) := by
    have := mul_lt_mul_of_pos_right hl hc
    have hπ : -Real.pi * (180 / Real.pi) = -180 := by field_simp; ring
    unfold rad2deg
    linarith
  unfold normalize360
  split
  · constructor <;> linarith
  · rename_i h
    push_neg at h
    constructor <;> linarith

/-- The right ascension computed by `sunPosFromDD` lies in `[0, 360)`. -/
theorem sunPosFromDD_ra_range (dd : ℝ) :
    0 ≤ (sunPosFromDD dd).ra ∧ (sunPosFromDD dd).ra < 360 :=
  normalize360_arctan2_range _ _

/-- Rounding zero to four decimals gives zero. -/
theorem round4_zero : round4 0 = 0 := by
  unfold round4 roundHalfEven
  norm_num

/-- The squared sine of a latitude in degrees is even in the latitude. -/
theorem sin_sq_deg2rad_neg (L : ℝ) :
    Real.sin (deg2rad (-L)) ^ 2 = Real.sin (deg2rad L) ^ 2 := by
  have h : deg2rad (-L) = -deg2rad L := by unfold deg2rad; ring
  rw [h, Real.sin_neg, neg_sq]

/-- Evaluation of `diff_rot` on a numeric duration with a valid profile:
the guard passes and the result is the rounded, frame-corrected rotation. -/
theorem diff_rot_days_eval (r L : ℝ) (p f : String)
    (hp : p ∈ (["howard", "allen", "snodgrass"] : List String)) :
    diff_rot (.days r) L p f =
      .ok (round4 (if f = "synodic"
        then sidereal_rotation_deg r L p - 0.9856 * r
        else sidereal_rotation_deg r L p)) := by
  simp only [diff_rot]
  rw [if_neg (not_not_intro hp)]
  have hd : r * 24 * 3600 / 24 / 3600 = r := by ring
  rw [hd]

/-- A zero-day duration accumulates no rotation, for each valid profile. -/
theorem sidereal_rotation_deg_zero (L : ℝ) (p : String)
    (hp : p ∈ (["howard", "allen", "snodgrass"] : List String)) :
    sidereal_rotation_deg 0 L p = 0 := by
  simp only [List.mem_cons, List.not_mem_nil, or_false] at hp
  rcases hp with h | h | h <;> subst h <;>
    simp [sidereal_rotation_deg, rot_params]

/-! ## Claim theorems -/

/-- C1 (counterexample): an invalid `frame_time` does not raise: `bogus` is
neither `sidereal` nor `synodic`, yet `diff_rot 0 0 howard bogus` returns a
value (it silently behaves as sidereal), contradicting the claim that an
invalid frame raises an InvalidInput error. -/
theorem c1_counterexample :
    (("bogus" : String) ≠ "sidereal" ∧ ("bogus" : String) ≠ "synodic") ∧
      diff_rot (.days 0) 0 "howard" "bogus" = .ok 0 := by
  refine ⟨⟨by simp, by simp⟩, ?_⟩
  rw [diff_rot_days_eval 0 0 "howard" "bogus" (by simp)]
  rw [if_neg (by simp : ¬("bogus" : String) = "synodic")]
  rw [sidereal_rotation_deg_zero 0 "howard" (by simp), round4_zero]

/-- C1 (amended): for every numeric duration and latitude, `diff_rot` raises
an InvalidInput (ValueError) if the profile is not one of howard, allen,
snodgrass, producing no result at all; the frame argument is never
validated (an unrecognised frame is silently treated as sidereal, see the
counterexample), and a timedelta duration fails earlier with an
unbound-local error. -/
theorem c1_invalid_profile_error (d L : ℝ) (rot_type frame_time : String)
    (hp : rot_type ∉ (["howard", "allen", "snodgrass"] : List String)) :
    diff_rot (.days d) L rot_type frame_time = .error rotTypeMsg := by
  simp only [diff_rot]
  rw [if_pos hp]

/-- C1 (witness): the amended theorem applied at a concrete invalid profile. -/
theorem c1_witness :
    ("bogus" : String) ∉ (["howard", "allen", "snodgrass"] : List String) ∧
      diff_rot (.days 1) 30 "bogus" "sidereal" = .error rotTypeMsg :=
  ⟨by simp, c1_invalid_profile_error 1 30 "bogus" "sidereal" (by simp)⟩

/-- C4: for every numeric duration, latitude and valid profile, the
synodic-frame result of `diff_rot` is the sidereal-frame value (the
accumulated rotation before the frame correction) minus `0.9856` degrees per
elapsed day, rounded to four decimal places. -/
theorem c4_synodic_correction (d L : ℝ) (rot_type : String)
    (hp : rot_type ∈ (["howard", "allen", "snodgrass"] : List String)) :
    diff_rot (.days d) L rot_type "synodic" =
      .ok (round4 (sidereal_rotation_deg d L rot_type - 0.9856 * d)) := by
  rw [diff_rot_days_eval d L rot_type "synodic" hp, if_pos rfl]

/-- C4 (witness): the theorem applied at one day, latitude 30, howard. -/
theorem c4_witness :
    ("howard" : String) ∈ (["howard", "allen", "snodgrass"] : List String) ∧
      diff_rot (.days 1) 30 "howard" "synodic" =
        .ok (round4 (sidereal_rotation_deg 1 30 "howard" - 0.9856 * 1)) :=
  ⟨by simp, c4_synodic_correction 1 30 "howard" (by simp)⟩

/-- C5: for every latitude, every valid profile and both frames, `diff_rot`
with a zero duration returns exactly `0.0`. -/
theorem c5_zero_duration (L : ℝ) (rot_type frame_time : String)
    (hp : rot_type ∈ (["howard", "allen", "snodgrass"] : List String))
    (hf : frame_time ∈ (["sidereal", "synodic"] : List String)) :
    diff_rot (.days 0) L rot_type frame_time = .ok 0 := by
  rw [diff_rot_days_eval 0 L rot_type frame_time hp,
    sidereal_rotation_deg_zero L rot_type hp]
  simp only [List.mem_cons, List.not_mem_nil, or_false] at hf
  rcases hf with h | h <;> subst h
  · rw [if_neg (by simp : ¬("sidereal" : String) = "synodic"), round4_zero]
  · rw [if_pos rfl]
    norm_num [round4_zero]

/-- C5 (witness): the theorem applied at latitude 30, howard, sidereal. -/
theorem c5_witness :
    ("howard" : String) ∈ (["howard", "allen", "snodgrass"] : List String) ∧
      ("sidereal" : String) ∈ (["sidereal", "synodic"] : List String) ∧
      diff_rot (.days 0) 30 "howard" "sidereal" = .ok 0 :=
  ⟨by simp, by simp, c5_zero_duration 30 "howard" "sidereal" (by simp) (by simp)⟩

/-- C6: for every numeric duration, latitude and each of the three profiles
(and either frame), `diff_rot` is an even function of latitude: the result at
`-L` equals the result at `L`. -/
theorem c6_latitude_symmetry (d L : ℝ) (rot_type frame_time : String)
    (hp : rot_type ∈ (["howard", "allen", "snodgrass"] : List String)) :
    diff_rot (.days d) (-L) rot_type frame_time =
      diff_rot (.days d) L rot_type frame_time := by
  clear hp
  simp only [diff_rot, sidereal_rotation_deg, sin_sq_deg2rad_neg]

/-- C6 (witness): the theorem applied at two days, latitude 30, howard. -/
theorem c6_witness :
    ("howard" : String) ∈ (["howard", "allen", "snodgrass"] : List String) ∧
      diff_rot (.days 2) (-30) "howard" "sidereal" =
        diff_rot (.days 2) 30 "howard" "sidereal" :=
  ⟨by simp, c6_latitude_symmetry 2 30 "howard" "sidereal" (by simp)⟩

/-- C10: for every duration argument that is already a timedelta value (as
the docstring permits), `diff_rot` never returns a result: the local variable
`delta` is assigned only in the non-timedelta branch, so every timedelta
input hits an unbound-variable error. -/
theorem c10_timedelta_unbound (td latitude : ℝ) (rot_type frame_time : String) :
    diff_rot (.timedelta td) latitude rot_type frame_time =
      .error unboundDeltaMsg := rfl

/-- C8: for every calendar instant `i`, `sun_pos` called on the Julian day of
`i` with `is_julian=True` returns exactly the same five-field
`EphemerisResult` as `sun_pos` called directly on `i`, with `julian_day`
treated as an uninterpreted pure function. -/
theorem c8_julian_day_equivalence {γ : Type} (julian_day : γ → ℝ) (i : γ) :
    sun_pos julian_day (.julian (julian_day i)) false =
      sun_pos julian_day (.calendar i) false := rfl

/-- C7: for every instant, in whichever of the accepted forms, the `ra` field
returned by `sun_pos` satisfies `0 <= ra < 360`. -/
theorem c7_ra_normalized {γ : Type} (julian_day : γ → ℝ)
    (date : DateSpec γ) (since_2415020 : Bool) :
    0 ≤ (sun_pos julian_day date since_2415020).ra ∧
      (sun_pos julian_day date since_2415020).ra < 360 := by
  cases date with
  | julian j => cases since_2415020 <;> exact sunPosFromDD_ra_range _
  | calendar c => cases since_2415020 <;> exact sunPosFromDD_ra_range _

/-- C2 (code bug): the position-angle expression actually computed at lines
221-223 applies the tangent to the product `deg2rad oblt * cos (deg2rad appl)`
(a misplaced parenthesis), while the claimed formula, like the IDL `pb0r.pro`
the docstring cites, applies it to the obliquity alone; the two expressions
disagree, exhibited here at `oblt = 120`, `appl = 60` degrees where both
sides have closed forms (`tan (pi/3) = sqrt 3` versus `tan (2*pi/3) = -sqrt 3`). -/
theorem c2_p_formula_divergence : pb0r_p 120 60 0 ≠ pb0r_p_spec 120 60 0 := by
  have hpi : (0 : ℝ) < Real.pi := Real.pi_pos
  have h60 : deg2rad 60 = Real.pi / 3 := by unfold deg2rad; ring
  have hcos60 : Real.cos (deg2rad 60) = 1 / 2 := by rw [h60, Real.cos_pi_div_three]
  have harg : deg2rad 120 * Real.cos (deg2rad 60) = Real.pi / 3 := by
    rw [hcos60]; unfold deg2rad; ring
  have htan3 : Real.tan (Real.pi / 3) = Real.sqrt 3 := by
    rw [Real.tan_eq_sin_div_cos, Real.sin_pi_div_three, Real.cos_pi_div_three]
    ring
  have h120 : deg2rad 120 = Real.pi - Real.pi / 3 := by unfold deg2rad; ring
  have htan120 : Real.tan (deg2rad 120) = -Real.sqrt 3 := by
    rw [Real.tan_eq_sin_div_cos, h120, Real.sin_pi_sub, Real.cos_pi_sub,
      Real.sin_pi_div_three, Real.cos_pi_div_three]
    ring
  have hs3 : (0 : ℝ) < Real.sqrt 3 := Real.sqrt_pos.mpr (by norm_num)
  have hlt : Real.arctan (-Real.tan (deg2rad 120 * Real.cos (deg2rad 60))) <
      Real.arctan (-Real.tan (deg2rad 120) * Real.cos (deg2rad 60)) := by
    apply Real.arctan_strictMono
    rw [harg, htan3, htan120, hcos60]
    nlinarith [hs3]
  have hc : (0 : ℝ) < 180 / Real.pi := by positivity
  unfold pb0r_p pb0r_p_spec rad2deg
  intro heq
  have hmul := mul_lt_mul_of_pos_right
    (add_lt_add_right hlt (Real.arctan (-0.127220 * Real.cos (deg2rad 0)))) hc
  rw [heq] at hmul
  exact lt_irrefl _ hmul

/-- C3 (code bug): `pb0r` with `stereo` not requested never returns the
`(P, B0, rsun)` record its docstring and the specification promise; for every
instant it raises a `NameError`, because `b0`, `rsun` and `l0` are never
assigned (and the intended return keys are `b0`, `rsun`, `l0`, not `P`). -/
theorem c3_pb0r_never_returns {γ : Type} (julian_day : γ → ℝ) (date : γ) :
    pb0r julian_day date false = .error pb0rNameMsg := rfl

/-- C9 (counterexample): with `tend` and a zero `interval` supplied but no
`tstart`, the supplied keywords form neither a start+end pair nor a
start+interval pair, yet `rot_xy` raises nothing and returns normally,
contradicting the claim that the validation error is raised whenever the
pairs are incomplete. -/
theorem c9_counterexample :
    rot_xy (fun _ : Unit => (0 : ℝ)) 0 [] [] none (some ()) (some 0) =
      .ok () := by
  simp [rot_xy]

/-- C9 (amended): given same-shaped coordinates, `rot_xy` raises the
insufficient-time-specification error exactly when `tstart` is missing and,
in addition, `tend` or `interval` is missing; a supplied `tstart` alone
passes (the end defaults to the current time), and a supplied `tend` plus
`interval` without any `tstart` also passes. -/
theorem c9_validation_criterion {σ : Type} (parse_time : σ → ℝ) (now : ℝ)
    (xshape yshape : List Nat) (tstart tend : Option σ) (interval : Option ℝ)
    (hs : xshape = yshape) :
    (rot_xy parse_time now xshape yshape tstart tend interval =
        .error insufficientTimeMsg) ↔
      (tstart.isNone && (tend.isNone || interval.isNone)) = true := by
  subst hs
  unfold rot_xy
  rw [if_neg (by simp)]
  cases tstart <;> cases tend <;> cases interval <;>
    simp <;> split <;> simp [rotXyNameMsg, insufficientTimeMsg]

/-- C9 (witness): the amended theorem applied with every keyword missing. -/
theorem c9_witness :
    ([] : List Nat) = [] ∧
      ((rot_xy (fun _ : Unit => (0 : ℝ)) 0 [] [] none none none =
          .error insufficientTimeMsg) ↔
        ((none : Option Unit).isNone &&
          ((none : Option Unit).isNone || (none : Option ℝ).isNone)) = true) :=
  ⟨rfl, c9_validation_criterion (fun _ : Unit => (0 : ℝ)) 0 [] [] none none none rfl⟩

end SunpyCoordsUtil
